import Mathlib

/-!
Verification of the NFS source module
(`pyanaconda/modules/payloads/source/nfs/nfs.py`).

The module is embedded shallowly: the module object becomes a structure,
methods become pure functions, the `url_changed` signal becomes an explicit
event trace, and exceptions become `Except`.  Helper code that the module
calls but that is not part of the source fragment (`create_nfs_url`,
`parse_nfs_url`, `SourceState.from_bool`, `get_mount_state`, the task
classes' `run` bodies) is modelled from the specification, as marked in the
doc comments.
-/

namespace Anaconda

/-- Source types, from `pyanaconda.modules.payloads.constants.SourceType`;
only the NFS member matters here. -/
inductive SourceType
  | NFS
  | CDROM
  | HDD
deriving DecidableEq, Repr

/-- Source states, from `pyanaconda.modules.payloads.constants.SourceState`. -/
inductive SourceState
  | NOT_APPLICABLE
  | READY
  | UNAVAILABLE
deriving DecidableEq, Repr

/-- Modelled from the spec: `SourceState.from_bool` maps the mount probe's
boolean to `READY` iff the probe reports mounted, else `UNAVAILABLE`. -/
def SourceState.from_bool (value : Bool) : SourceState :=
  if value then SourceState.READY else SourceState.UNAVAILABLE

/-- Error kinds surfaced by the lifecycle operations (spec section 7). -/
inductive PayloadError
  | invalidConfigurationError
  | unmountFailure
deriving DecidableEq, Repr

instance {ε α : Type} [DecidableEq ε] [DecidableEq α] : DecidableEq (Except ε α) := by
  intro a b
  cases a <;> cases b
  case error.error x y =>
    exact if h : x = y then isTrue (by rw [h]) else isFalse (by intro hc; cases hc; exact h rfl)
  case ok.ok x y =>
    exact if h : x = y then isTrue (by rw [h]) else isFalse (by intro hc; cases hc; exact h rfl)
  case error.ok x y => exact isFalse (by intro hc; cases hc)
  case ok.error x y => exact isFalse (by intro hc; cases hc)

/-- The NFS address separator character. -/
def colon : Char := ':'

/-- The characters of the fixed kind tag that opens a composite NFS address. -/
def nfsTag : List Char := ['n', 'f', 's']

/-- Split a character list at every occurrence of `c`; the result is the
list of separated fields (always nonempty). -/
def splitCh (c : Char) : List Char → List (List Char)
  | [] => [[]]
  | x :: xs =>
    match splitCh c xs with
    | [] => [[x]]
    | y :: ys => if x = c then [] :: y :: ys else (x :: y) :: ys

/-- Modelled from the spec: `create_nfs_url` (from `pyanaconda.core.payload`,
not part of the source fragment) composes server host, remote path and mount
options into the single composite address
`nfs:<host>:<path>:<options>`, the documented lossless encoding; a value
outside the valid subset (missing required server, or a field that would
collide with the separator) fails with `InvalidConfigurationError` rather
than silently coercing. -/
def create_nfs_url (host path options : String) : Except PayloadError String :=
  if host.data ≠ [] ∧ colon ∉ host.data ∧ colon ∉ path.data ∧ colon ∉ options.data then
    Except.ok (String.mk (nfsTag ++ colon :: host.data ++ colon :: path.data
      ++ colon :: options.data))
  else
    Except.error PayloadError.invalidConfigurationError

/-- Modelled from the spec: `parse_nfs_url` (from `pyanaconda.core.payload`,
not part of the source fragment) decomposes a composite address into the
triple `(options, host, path)`.  The spec constrains it only on strings the
system itself produced (lossless decode of the encoding above); on any other
string it returns empty fields. -/
def parse_nfs_url (url : String) : String × String × String :=
  match splitCh colon url.data with
  | [t, s, p, o] =>
    if t = nfsTag then (String.mk o, String.mk s, String.mk p) else ("", "", "")
  | _ => ("", "", "")

/-- Observable events of a module method call, in order of occurrence:
the assignment to `self._url` and the `url_changed.emit()` signal. -/
inductive Event
  | store (url : String)
  | urlChangedEmit
deriving DecidableEq, Repr

/-- The state of an `NFSSourceModule` instance: `self._url` (initialised to
`""` by `__init__`) and the mount point owned by the `MountingSourceMixin`
base (assigned once, never reassigned). -/
structure NFSSourceModule where
  url : String := ""
  mount_point : String
deriving DecidableEq, Repr

/-- The external mount world: which paths are currently mounted (the
`MountStateProbe`'s ground truth), and whether an unmount system call on a
path would succeed. -/
structure MountWorld where
  mounted : String → Bool
  unmount_ok : String → Bool

/-- The kind-specific fields of the kickstart profile record
(`data.nfs.server`, `data.nfs.dir`, `data.nfs.opts`, `data.nfs.seen`). -/
structure NfsData where
  server : String := ""
  dir : String := ""
  opts : String := ""
  seen : Bool := false
deriving DecidableEq, Repr

/-- A kickstart profile record: the NFS section plus all the other fields of
the record, which this module never reads or writes. -/
structure KickstartData where
  nfs : NfsData
  rest : List String := []
deriving DecidableEq, Repr

/-- Property `NFSSourceModule.type`: the fixed source kind tag. -/
def NFSSourceModule.type (_ : NFSSourceModule) : SourceType :=
  SourceType.NFS

/-- Property `NFSSourceModule.description`. -/
def NFSSourceModule.description (m : NFSSourceModule) : String :=
  "NFS server " ++ m.url

/-- Property `NFSSourceModule.network_required`: NFS always requires a network. -/
def NFSSourceModule.network_required (_ : NFSSourceModule) : Bool :=
  true

/-- Modelled from the spec: `get_mount_state` (from `MountingSourceMixin`,
not part of the source fragment) is the pure mount probe applied to the
module's own mount point. -/
def NFSSourceModule.get_mount_state (w : MountWorld) (m : NFSSourceModule) : Bool :=
  w.mounted m.mount_point

/-- Method `NFSSourceModule.get_state`: `SourceState.from_bool(self.get_mount_state())`. -/
def NFSSourceModule.get_state (w : MountWorld) (m : NFSSourceModule) : SourceState :=
  SourceState.from_bool (m.get_mount_state w)

/-- Method `NFSSourceModule.set_url`: stores the value into `self._url` and then
fires `url_changed.emit()` — unconditionally, with no validation.  The
returned event list records the observable order of effects. -/
def NFSSourceModule.set_url (m : NFSSourceModule) (url : String) :
    NFSSourceModule × List Event :=
  ({ m with url := url }, [Event.store url, Event.urlChangedEmit])

/-- Method `NFSSourceModule.process_kickstart`: composes the record's NFS fields
with `create_nfs_url` and hands the result to `set_url`; a composition
failure propagates before `set_url` runs. -/
def NFSSourceModule.process_kickstart (m : NFSSourceModule) (data : KickstartData) :
    Except PayloadError (NFSSourceModule × List Event) :=
  (create_nfs_url data.nfs.server data.nfs.dir data.nfs.opts).map m.set_url

/-- Run `process_kickstart` as a caller sees it: on failure the module is
unchanged, the error is reported and no event fired. -/
def NFSSourceModule.run_process_kickstart (m : NFSSourceModule) (data : KickstartData) :
    NFSSourceModule × Option PayloadError × List Event :=
  match m.process_kickstart data with
  | Except.error e => (m, some e, [])
  | Except.ok (m2, events) => (m2, none, events)

/-- Method `NFSSourceModule.setup_kickstart`: decomposes `self.url`, writes the
three NFS fields of the record and marks it as seen. -/
def NFSSourceModule.setup_kickstart (m : NFSSourceModule) (data : KickstartData) :
    KickstartData :=
  let t := parse_nfs_url m.url
  { data with nfs := { server := t.2.1, dir := t.2.2, opts := t.1, seen := true } }

/-- Task class `SetUpNFSSourceTask`: holds the inputs given at construction time.
`oid` models Python object identity: each constructed object is distinct. -/
structure SetUpNFSSourceTask where
  oid : Nat
  mount_point : String
  url : String
deriving DecidableEq, Repr

/-- Task class `TearDownMountTask`: holds the mount point given at construction time.
`oid` models Python object identity. -/
structure TearDownMountTask where
  oid : Nat
  mount_point : String
deriving DecidableEq, Repr

/-- Method `NFSSourceModule.set_up_with_tasks`: a singleton list with a freshly
constructed `SetUpNFSSourceTask(self.mount_point, self._url)`.  The
allocation counter `alloc` models Python's fresh object creation; the module
is returned unchanged, making the absence of mutation explicit. -/
def NFSSourceModule.set_up_with_tasks (m : NFSSourceModule) (alloc : Nat) :
    NFSSourceModule × List SetUpNFSSourceTask × Nat :=
  (m, [⟨alloc, m.mount_point, m.url⟩], alloc + 1)

/-- Method `NFSSourceModule.tear_down_with_tasks`: a singleton list with a freshly
constructed `TearDownMountTask(self._mount_point)`. -/
def NFSSourceModule.tear_down_with_tasks (m : NFSSourceModule) (alloc : Nat) :
    NFSSourceModule × List TearDownMountTask × Nat :=
  (m, [⟨alloc, m.mount_point⟩], alloc + 1)

/-- Modelled from the spec: running a `TearDownMountTask` (its body is not
part of the source fragment).  "Nothing is mounted" is a successful no-op;
on a mounted point it performs the unmount, which either succeeds or fails
with `UnmountFailure`. -/
def TearDownMountTask.run (t : TearDownMountTask) (w : MountWorld) :
    Except PayloadError MountWorld :=
  if w.mounted t.mount_point then
    if w.unmount_ok t.mount_point then
      Except.ok
        { mounted := fun p => if p = t.mount_point then false else w.mounted p,
          unmount_ok := w.unmount_ok }
    else
      Except.error PayloadError.unmountFailure
  else
    Except.ok w

/-- A sample module instance used by the concrete witnesses below. -/
def sampleModule : NFSSourceModule :=
  { url := "nfs:a:/b:c", mount_point := "/run/install/sources/mount-0000-nfs-device" }

/-- A string that is malformed as an NFS address: it decomposes to an empty
server and no composition produces it. -/
def malformedUrl : String := "totally malformed"

/-- A sample server host used by the concrete witnesses. -/
def hostA : String := "a"

/-- A sample remote path used by the concrete witnesses. -/
def pathB : String := "/b"

/-- A sample option string used by the concrete witnesses. -/
def optsC : String := "c"

/-- The composite address of the sample triple above. -/
def urlABC : String := "nfs:a:/b:c"

/-- A kickstart record whose required server field is missing (empty). -/
def missingServerData : KickstartData :=
  { nfs := { dir := "/export/data", opts := "ro" } }

/-- A well-formed kickstart record used by the concrete witnesses. -/
def goodData : KickstartData :=
  { nfs := { server := "nfs.example.com", dir := "/export/data", opts := "vers=4" },
    rest := ["keyboard us"] }

/-- A blank kickstart record used as the export target in witnesses. -/
def blankData : KickstartData :=
  { nfs := {} }

/-- A world in which no path is mounted. -/
def unmountedWorld : MountWorld :=
  { mounted := fun _ => false, unmount_ok := fun _ => true }

/-- A sample mount point for task witnesses. -/
def mp0 : String := "/run/install/source"

/-! ## Helper lemmas about the address codec -/

theorem splitCh_ne_nil (c : Char) (l : List Char) : splitCh c l ≠ [] := by
  induction l with
  | nil => simp [splitCh]
  | cons x xs ih =>
    simp only [splitCh]
    cases h : splitCh c xs with
    | nil => exact (ih h).elim
    | cons y ys =>
      by_cases hx : x = c <;> simp [hx]

theorem splitCh_of_not_mem {c : Char} {a : List Char} (h : c ∉ a) :
    splitCh c a = [a] := by
  induction a with
  | nil => rfl
  | cons x xs ih =>
    have hx : x ≠ c := by
      intro he
      exact h (he ▸ List.mem_cons_self x xs)
    have hxs : c ∉ xs := fun hm => h (List.mem_cons_of_mem _ hm)
    simp only [splitCh, ih hxs]
    simp [hx]

theorem splitCh_append (c : Char) (a b : List Char) (h : c ∉ a) :
    splitCh c (a ++ c :: b) = a :: splitCh c b := by
  induction a with
  | nil =>
    simp only [List.nil_append, splitCh]
    cases hb : splitCh c b with
    | nil => exact (splitCh_ne_nil c b hb).elim
    | cons y ys => simp
  | cons x xs ih =>
    have hx : x ≠ c := by
      intro he
      exact h (he ▸ List.mem_cons_self x xs)
    have hxs : c ∉ xs := fun hm => h (List.mem_cons_of_mem _ hm)
    have e : splitCh c ((x :: xs) ++ c :: b)
        = match splitCh c (xs ++ c :: b) with
          | [] => [[x]]
          | y :: ys => if x = c then [] :: y :: ys else (x :: y) :: ys := rfl
    rw [e, ih hxs]
    simp [hx]

/-- Decomposition is a left inverse of composition: every address the
composer accepts decomposes to the exact triple it was composed from. -/
theorem parse_create {host path options u : String}
    (h : create_nfs_url host path options = Except.ok u) :
    parse_nfs_url u = (options, host, path) := by
  unfold create_nfs_url at h
  split at h
  case isFalse => exact Except.noConfusion h
  case isTrue hv =>
    obtain ⟨h1, h2, h3, h4⟩ := hv
    cases h
    have hsplit : splitCh colon (nfsTag ++ colon :: host.data ++ colon :: path.data
        ++ colon :: options.data) = [nfsTag, host.data, path.data, options.data] := by
      have e0 : nfsTag ++ colon :: host.data ++ colon :: path.data ++ colon :: options.data
          = nfsTag ++ (colon :: (host.data ++ (colon ::
              (path.data ++ (colon :: options.data))))) := by
        simp [List.append_assoc]
      rw [e0,
        splitCh_append colon nfsTag
          (host.data ++ (colon :: (path.data ++ (colon :: options.data)))) (by decide),
        splitCh_append colon host.data (path.data ++ (colon :: options.data)) h2,
        splitCh_append colon path.data options.data h3,
        splitCh_of_not_mem h4]
    unfold parse_nfs_url
    rw [show (String.mk (nfsTag ++ colon :: host.data ++ colon :: path.data
      ++ colon :: options.data)).data = nfsTag ++ colon :: host.data ++ colon :: path.data
      ++ colon :: options.data from rfl, hsplit]
    rfl

/-! ## The claims -/

/-- C1 (counterexample): `set_url` does not validate.  The value
`malformedUrl` is malformed for the NFS kind (it decomposes to an empty
server field), yet `set_url` succeeds on it, replaces the stored
configuration with it and fires the signal, instead of failing with
`InvalidConfigurationError` and leaving the configuration unchanged. -/
theorem set_url_accepts_malformed_cex :
    parse_nfs_url malformedUrl = ("", "", "")
    ∧ (sampleModule.set_url malformedUrl).1.url = malformedUrl
    ∧ malformedUrl ≠ sampleModule.url
    ∧ (sampleModule.set_url malformedUrl).2
        = [Event.store malformedUrl, Event.urlChangedEmit] := by
  refine ⟨by decide, rfl, by decide, rfl⟩

/-- C1 (amended): `set_url` performs no validation at all: for every input
value, well-formed or not, it replaces the stored configuration with the
value unconditionally (leaving the mount point alone), fires the change
notification, and never fails. -/
theorem set_url_no_validation (m : NFSSourceModule) (url : String) :
    (m.set_url url).1.url = url
    ∧ (m.set_url url).1.mount_point = m.mount_point
    ∧ (m.set_url url).2 = [Event.store url, Event.urlChangedEmit] :=
  ⟨rfl, rfl, rfl⟩

/-- C2: importing a kickstart record whose required server field is missing
(empty) fails with `InvalidConfigurationError`, leaves the stored url
unchanged and fires no notification.  The composition helper is modelled
from the spec, which makes a malformed record fail rather than coerce. -/
theorem process_kickstart_missing_server (m : NFSSourceModule) (d : KickstartData)
    (h : d.nfs.server = "") :
    m.run_process_kickstart d
      = (m, some PayloadError.invalidConfigurationError, []) := by
  have hc : create_nfs_url d.nfs.server d.nfs.dir d.nfs.opts
      = Except.error PayloadError.invalidConfigurationError := by
    rw [h]
    unfold create_nfs_url
    simp
  unfold NFSSourceModule.run_process_kickstart NFSSourceModule.process_kickstart
  rw [hc]
  rfl

/-- C2 (witness): the concrete record `missingServerData` has an empty
server field and importing it into `sampleModule` fails with
`InvalidConfigurationError`, leaving the module unchanged. -/
theorem process_kickstart_missing_server_witness :
    missingServerData.nfs.server = ""
    ∧ sampleModule.run_process_kickstart missingServerData
      = (sampleModule, some PayloadError.invalidConfigurationError, []) :=
  ⟨rfl, process_kickstart_missing_server sampleModule missingServerData rfl⟩

/-- C3 (counterexample): a no-op set — storing the value already held —
still fires the change notification, where the claim requires that none
fires. -/
theorem set_url_noop_emits_cex :
    (sampleModule.set_url sampleModule.url).1.url = sampleModule.url
    ∧ Event.urlChangedEmit ∈ (sampleModule.set_url sampleModule.url).2 := by
  refine ⟨rfl, by decide⟩

/-- C3 (amended): every call to `set_url` succeeds and fires exactly one
change notification, synchronously, after the new value is stored — no-op
sets included; no call fails validation, so no notification is ever dropped
for that reason. -/
theorem set_url_exactly_one_notification (m : NFSSourceModule) (url : String) :
    (m.set_url url).2.count Event.urlChangedEmit = 1
    ∧ (m.set_url url).2 = [Event.store url, Event.urlChangedEmit]
    ∧ (m.set_url url).1.url = url := by
  refine ⟨?_, rfl, rfl⟩
  rfl

/-- C4: for every record the import operation accepts, exporting the
configuration it produced into a fresh record reproduces the imported
record's server, dir and opts fields exactly. -/
theorem kickstart_import_export_roundtrip (m m2 : NFSSourceModule)
    (d d2 : KickstartData) (events : List Event)
    (h : m.process_kickstart d = Except.ok (m2, events)) :
    (m2.setup_kickstart d2).nfs.server = d.nfs.server
    ∧ (m2.setup_kickstart d2).nfs.dir = d.nfs.dir
    ∧ (m2.setup_kickstart d2).nfs.opts = d.nfs.opts := by
  unfold NFSSourceModule.process_kickstart at h
  cases hc : create_nfs_url d.nfs.server d.nfs.dir d.nfs.opts with
  | error e =>
    rw [hc] at h
    exact Except.noConfusion h
  | ok u =>
    rw [hc] at h
    have h2 : m.set_url u = (m2, events) := by
      injection h
    have h3 : m2 = { m with url := u } := by
      have := congrArg Prod.fst h2
      exact this.symm
    have hp : parse_nfs_url u = (d.nfs.opts, d.nfs.server, d.nfs.dir) := parse_create hc
    rw [h3]
    unfold NFSSourceModule.setup_kickstart
    rw [show ({ m with url := u } : NFSSourceModule).url = u from rfl, hp]
    exact ⟨rfl, rfl, rfl⟩

/-- C4 (witness): importing the concrete record `goodData` succeeds and
exporting into the blank record reproduces its server, dir and opts. -/
theorem kickstart_import_export_roundtrip_witness :
    sampleModule.process_kickstart goodData
      = Except.ok ({ sampleModule with url := "nfs:nfs.example.com:/export/data:vers=4" },
          [Event.store "nfs:nfs.example.com:/export/data:vers=4", Event.urlChangedEmit])
    ∧ (NFSSourceModule.setup_kickstart
        { sampleModule with url := "nfs:nfs.example.com:/export/data:vers=4" }
        blankData).nfs.server = goodData.nfs.server :=
  have h : sampleModule.process_kickstart goodData
      = Except.ok ({ sampleModule with url := "nfs:nfs.example.com:/export/data:vers=4" },
          [Event.store "nfs:nfs.example.com:/export/data:vers=4", Event.urlChangedEmit]) := by
    decide
  ⟨h, (kickstart_import_export_roundtrip sampleModule
      { sampleModule with url := "nfs:nfs.example.com:/export/data:vers=4" }
      goodData blankData
      [Event.store "nfs:nfs.example.com:/export/data:vers=4", Event.urlChangedEmit] h).1⟩

/-- C5: the address codec round-trips in both directions — every composite
address the composer accepts decomposes to the exact triple it was composed
from, and recomposing the decomposition of any address the system itself
produced yields the original string bit-for-bit. -/
theorem nfs_url_roundtrip :
    (∀ host path options u : String,
      create_nfs_url host path options = Except.ok u →
        parse_nfs_url u = (options, host, path))
    ∧ (∀ u : String,
      (∃ host path options, create_nfs_url host path options = Except.ok u) →
        create_nfs_url (parse_nfs_url u).2.1 (parse_nfs_url u).2.2
          (parse_nfs_url u).1 = Except.ok u) := by
  constructor
  · exact fun host path options u hc => parse_create hc
  · rintro u ⟨host, path, options, hc⟩
    rw [parse_create hc]
    exact hc

/-- C5 (witness): the concrete triple `(hostA, pathB, optsC)` composes to
`urlABC` and decomposes back to the identical triple. -/
theorem nfs_url_roundtrip_witness :
    create_nfs_url hostA pathB optsC = Except.ok urlABC
    ∧ parse_nfs_url urlABC = (optsC, hostA, pathB) :=
  ⟨by decide, nfs_url_roundtrip.1 hostA pathB optsC urlABC (by decide)⟩

/-- C6: `get_state` is `READY` iff the probe reports the module's mount
point mounted and `UNAVAILABLE` otherwise; it reads nothing but the probe
(two modules with the same mount point agree, whatever their urls), and on
a module whose configuration was never set it is `UNAVAILABLE` whenever the
mount point is unmounted. -/
theorem get_state_probe_iff (w : MountWorld) (m m2 : NFSSourceModule)
    (h : m.mount_point = m2.mount_point) :
    (m.get_state w = SourceState.READY ↔ w.mounted m.mount_point = true)
    ∧ (m.get_state w = SourceState.UNAVAILABLE ↔ w.mounted m.mount_point = false)
    ∧ m.get_state w = m2.get_state w
    ∧ NFSSourceModule.get_state w { url := "", mount_point := m.mount_point }
        = m.get_state w
    ∧ (w.mounted m.mount_point = false →
        NFSSourceModule.get_state w { url := "", mount_point := m.mount_point }
          = SourceState.UNAVAILABLE) := by
  unfold NFSSourceModule.get_state NFSSourceModule.get_mount_state SourceState.from_bool
  rw [h]
  cases hb : w.mounted m2.mount_point <;> simp_all

/-- C6 (witness): on the concrete unmounted world, `sampleModule` reports
`UNAVAILABLE`, in agreement with the probe. -/
theorem get_state_probe_iff_witness :
    sampleModule.mount_point = sampleModule.mount_point
    ∧ (sampleModule.get_state unmountedWorld = SourceState.UNAVAILABLE
        ↔ unmountedWorld.mounted sampleModule.mount_point = false) :=
  ⟨rfl, (get_state_probe_iff unmountedWorld sampleModule sampleModule rfl).2.1⟩

/-- C7: running a teardown task on an already-unmounted mount point
succeeds as a no-op, and running it twice in sequence also succeeds with
the identical final world — teardown is idempotent. -/
theorem tear_down_idempotent (t : TearDownMountTask) (w : MountWorld)
    (h : w.mounted t.mount_point = false) :
    t.run w = Except.ok w ∧ (t.run w).bind t.run = Except.ok w := by
  have h1 : t.run w = Except.ok w := by
    unfold TearDownMountTask.run
    simp [h]
  exact ⟨h1, by rw [h1]; exact h1⟩

/-- C7 (witness): running the concrete teardown task on the unmounted world
succeeds and leaves the world identical. -/
theorem tear_down_idempotent_witness :
    unmountedWorld.mounted mp0 = false
    ∧ TearDownMountTask.run ⟨0, mp0⟩ unmountedWorld = Except.ok unmountedWorld :=
  ⟨rfl, (tear_down_idempotent ⟨0, mp0⟩ unmountedWorld rfl).1⟩

/-- C8: for every stored configuration and every record, `setup_kickstart`
writes exactly the fields server, dir and opts (from the decomposed url),
sets the seen marker to true, and leaves every other field of the record
untouched. -/
theorem setup_kickstart_frame (m : NFSSourceModule) (d : KickstartData) :
    (m.setup_kickstart d).rest = d.rest
    ∧ (m.setup_kickstart d).nfs.seen = true
    ∧ (m.setup_kickstart d).nfs.server = (parse_nfs_url m.url).2.1
    ∧ (m.setup_kickstart d).nfs.dir = (parse_nfs_url m.url).2.2
    ∧ (m.setup_kickstart d).nfs.opts = (parse_nfs_url m.url).1 :=
  ⟨rfl, rfl, rfl, rfl, rfl⟩

/-- C9: each call to `set_up_with_tasks` and `tear_down_with_tasks` leaves
the module untouched and returns a singleton list holding a freshly
constructed task bound to the current mount point (and, for setup, the
current url snapshot); two successive calls return distinct task objects. -/
theorem with_tasks_fresh_pure (m : NFSSourceModule) (alloc : Nat) :
    (m.set_up_with_tasks alloc).1 = m
    ∧ (m.set_up_with_tasks alloc).2.1 = [⟨alloc, m.mount_point, m.url⟩]
    ∧ (m.tear_down_with_tasks alloc).1 = m
    ∧ (m.tear_down_with_tasks alloc).2.1 = [⟨alloc, m.mount_point⟩]
    ∧ ((m.set_up_with_tasks alloc).1.set_up_with_tasks
        (m.set_up_with_tasks alloc).2.2).2.1 ≠ (m.set_up_with_tasks alloc).2.1
    ∧ ((m.tear_down_with_tasks alloc).1.tear_down_with_tasks
        (m.tear_down_with_tasks alloc).2.2).2.1 ≠ (m.tear_down_with_tasks alloc).2.1 := by
  refine ⟨rfl, rfl, rfl, rfl, ?_, ?_⟩ <;>
    simp [NFSSourceModule.set_up_with_tasks, NFSSourceModule.tear_down_with_tasks]

/-- C10: the type property always equals `SourceType.NFS` and the
`network_required` property always equals true, on every module state —
hence on the fresh module and after every sequence of operations — and
neither depends on the stored configuration. -/
theorem type_network_required_constant (m : NFSSourceModule) :
    m.type = SourceType.NFS
    ∧ m.network_required = true
    ∧ (∀ m2 : NFSSourceModule, m.type = m2.type
        ∧ m.network_required = m2.network_required) :=
  ⟨rfl, rfl, fun _ => ⟨rfl, rfl⟩⟩

end Anaconda
